import Mathlib

/-!
Shallow embedding of the RejseplanenAPI python client (src/main.py) together
with proofs about its polyline codec, shared-table resolver, trip assembler
and walking-route cache.

Modelling conventions:
* JSON-like dynamic values are modelled by `JVal`; a python dict access
  `d.get(k)` becomes `JVal.get?`, `d.get(k, dflt)` becomes the typed getter
  matching the dataclass annotation of the receiving field, `k in d` becomes
  `JVal.hasKey`.
* Python floats produced by the two divisions `x / 1e5` and `x / 1e6` are
  rendered as exact rationals.
* Code that can raise inside the `try` of `_parse_trip` is modelled in the
  `Option` monad; `None` models a swallowed exception.
* The lazy walking-geometry fetch of `plan_trip` is modelled by threading an
  explicit state (the `walking_polylines` table of `CommonData` plus an
  instrumentation log of every fetch issued) through the section loop, with
  the HTTP transport abstracted as an oracle `String → Option JVal` mapping a
  route-context token to the raw `GisRoute` response (`none` = transport
  failure).
-/

/-- A JSON-like dynamic value, the shape handed around by the python code. -/
inductive JVal where
  | null
  | bool (b : Bool)
  | num (n : Int)
  | str (s : String)
  | arr (xs : List JVal)
  | obj (fs : List (String × JVal))

namespace JVal

/-- `d.get(k)` on a JSON object: the binding of key `k`, if any. -/
def get? (v : JVal) (k : String) : Option JVal :=
  match v with
  | .obj fs => fs.lookup k
  | _ => none

/-- `k in d` for a JSON object. -/
def hasKey (v : JVal) (k : String) : Bool :=
  (v.get? k).isSome

/-- `d.get(k, dflt)` with the raw value kept dynamic. -/
def getVD (v : JVal) (k : String) (dflt : JVal) : JVal :=
  (v.get? k).getD dflt

/-- Python truthiness of a JSON value. -/
def truthy : JVal → Bool
  | .null => false
  | .bool b => b
  | .num n => n != 0
  | .str s => !s.isEmpty
  | .arr xs => !xs.isEmpty
  | .obj fs => !fs.isEmpty

/-- `d.get(k, dflt)` for a field whose dataclass annotation is `str`. -/
def getStrD (v : JVal) (k : String) (dflt : String) : String :=
  match v.get? k with
  | some (.str s) => s
  | _ => dflt

/-- `d.get(k, dflt)` for a field whose dataclass annotation is `int`. -/
def getIntD (v : JVal) (k : String) (dflt : Int) : Int :=
  match v.get? k with
  | some (.num n) => n
  | _ => dflt

/-- `d.get(k, dflt)` for a field whose dataclass annotation is `bool`. -/
def getBoolD (v : JVal) (k : String) (dflt : Bool) : Bool :=
  match v.get? k with
  | some (.bool b) => b
  | _ => dflt

/-- `d.get(k, [])` for a list-shaped field. -/
def getArrD (v : JVal) (k : String) : List JVal :=
  match v.get? k with
  | some (.arr xs) => xs
  | _ => []

end JVal

/-! ## The polyline codec (`decode_polyline`, src/main.py:985-1035) -/

/-- One inner `while` of `decode_polyline` (src/main.py:1004-1010 and
1021-1027): `b = ord(c) - 63; result |= (b & 0x1f) << shift; shift += 5;
break if b < 0x20`.  Python bit-ands the possibly negative `b` in two's
complement, which over the integers is the Euclidean remainder mod 32. -/
def readVarint : List Char → Nat → Nat → Nat × List Char
  | [], _, result => (result, [])
  | c :: rest, shift, result =>
    let b : Int := (c.toNat : Int) - 63
    let result1 := result ||| ((b % 32).toNat <<< shift)
    if b < 32 then (result1, rest) else readVarint rest (shift + 5) result1

/-- `(~(result >> 1)) if (result & 1) else (result >> 1)` (src/main.py:1012,
1029); python `~x` on unbounded integers is `-x - 1`. -/
def signedDelta (result : Nat) : Int :=
  if result &&& 1 = 1 then -((result >>> 1 : Nat) : Int) - 1
  else ((result >>> 1 : Nat) : Int)

/-- Outer `while` of `decode_polyline` (src/main.py:1000-1033).  The fuel is
the length of the remaining input, a bound on the number of iterations since
every iteration consumes at least one character; the loop always exits
through an empty rest before fuel can run out. -/
def decodeLoop : Nat → List Char → Int → Int → List (ℚ × ℚ)
  | 0, _, _, _ => []
  | _ + 1, [], _, _ => []
  | fuel + 1, c :: cs, lat, lon =>
    let v1 := readVarint (c :: cs) 0 0
    let lat1 := lat + signedDelta v1.1
    if v1.2.isEmpty then []
    else
      let v2 := readVarint v1.2 0 0
      let lon1 := lon + signedDelta v2.1
      ((lat1 : ℚ) / 100000, (lon1 : ℚ) / 100000) :: decodeLoop fuel v2.2 lat1 lon1

/-- `decode_polyline` (src/main.py:985-1035), with `x / 1e5` rendered as
exact rational division. -/
def decode_polyline (encoded : String) : List (ℚ × ℚ) :=
  if encoded.isEmpty then [] else decodeLoop encoded.length encoded.data 0 0

/-! ## The reference codec, transcribed from the words of spec.md §4.1

These definitions follow the specification text, not the source: an axis is
"a signed variable-length integer, little-endian 5-bit groups, continuation
flag = bit 0x20 of `(char_code - 63)`"; the sign is zig-zag decoded from the
low bit; latitude then longitude accumulate as running deltas from (0,0) and
are divided by 1e5; decoding stops at exhaustion and a final pair whose
longitude delta is missing because the string ends is dropped. -/

/-- Read the little-endian 5-bit groups of one variable-length integer.  The
group value is bit-masked from `char_code - 63` (Euclidean remainder mod 32,
i.e. two's-complement `& 0x1f`); the continuation flag is bit 0x20 of
`char_code - 63`, which for an integer `b` is `32 ≤ b % 64` in Euclidean
arithmetic. -/
def specGroups : List Char → List Nat × List Char
  | [] => ([], [])
  | c :: rest =>
    let b : Int := (c.toNat : Int) - 63
    let g := (b % 32).toNat
    if b % 64 < 32 then ([g], rest)
    else
      let p := specGroups rest
      (g :: p.1, p.2)

/-- Assemble little-endian 5-bit groups into the magnitude they denote: each
group occupies the next five bits. -/
def specAssemble : List Nat → Nat
  | [] => 0
  | g :: gs => g ||| (specAssemble gs <<< 5)

/-- Zig-zag sign decoding as worded by the spec: if the low bit of the
assembled magnitude is set, the value is the one's complement of the
right-shifted magnitude, else the right-shifted magnitude itself. -/
def specSigned (m : Nat) : Int :=
  if m % 2 = 1 then -((m / 2 : Nat) : Int) - 1 else ((m / 2 : Nat) : Int)

/-- One signed variable-length integer of the reference algorithm. -/
def specVarint (s : List Char) : Int × List Char :=
  let p := specGroups s
  (specSigned (specAssemble p.1), p.2)

/-- The reference decoding loop: latitude delta, then longitude delta,
running accumulation, a truncated final pair dropped. -/
def specLoop : Nat → List Char → Int → Int → List (ℚ × ℚ)
  | 0, _, _, _ => []
  | _ + 1, [], _, _ => []
  | fuel + 1, c :: cs, lat, lon =>
    let v1 := specVarint (c :: cs)
    let lat1 := lat + v1.1
    if v1.2.isEmpty then []
    else
      let v2 := specVarint v1.2
      let lon1 := lon + v2.1
      ((lat1 : ℚ) / 100000, (lon1 : ℚ) / 100000) :: specLoop fuel v2.2 lat1 lon1

/-- The reference algorithm of spec.md §4.1 as a whole. -/
def spec_decode (encoded : String) : List (ℚ × ℚ) :=
  specLoop encoded.length encoded.data 0 0

/-! ## Domain model (the dataclasses of src/main.py:110-503)

Fields that python stores raw (`d.get(k)` with no default) are kept as
`Option JVal`; fields with a default and a concrete dataclass annotation use
the typed getter of that annotation. -/

/-- The `TransportMode` enum (src/main.py:20-29). -/
inductive TransportMode where
  | WALK
  | JNY
  | BIKE
  | CAR
  | TAXI
  | KISS
  | PARK
  | TETA
deriving DecidableEq

/-- `TransportMode(value)`: python raises `ValueError` on anything that is
not one of the declared mode strings, hence `Option`. -/
def TransportMode.ofString? : String → Option TransportMode
  | "WALK" => some .WALK
  | "JNY" => some .JNY
  | "BIKE" => some .BIKE
  | "CAR" => some .CAR
  | "TAXI" => some .TAXI
  | "KISS" => some .KISS
  | "PARK" => some .PARK
  | "TETA" => some .TETA
  | _ => none

/-- `Coordinate` (src/main.py:110-126); microdegrees divided by 1e6, kept as
exact rationals. -/
structure Coordinate where
  lat : ℚ
  lon : ℚ
  layer_index : Int := 0
  crd_sys_index : Int := 0

/-- `Coordinate.from_api` (src/main.py:118-126). -/
def Coordinate.from_api (crd : JVal) : Coordinate :=
  { lat := (crd.getIntD "y" 0 : ℚ) / 1000000
    lon := (crd.getIntD "x" 0 : ℚ) / 1000000
    layer_index := crd.getIntD "layerX" 0
    crd_sys_index := crd.getIntD "crdSysX" 0 }

/-- `Color` (src/main.py:129-138). -/
structure Color where
  r : Int
  g : Int
  b : Int

/-- `Color(**d)` as used by `Icon.from_api` and `DrawStyle.from_api`. -/
def Color.ofJVal (v : JVal) : Color :=
  { r := v.getIntD "r" 0, g := v.getIntD "g" 0, b := v.getIntD "b" 0 }

/-- `Icon` (src/main.py:141-159). -/
structure Icon where
  resource : String
  text : Option JVal := none
  foreground : Option Color := none
  background : Option Color := none

/-- `Icon.from_api` (src/main.py:149-159). -/
def Icon.from_api (data : JVal) : Icon :=
  { resource := data.getStrD "res" ""
    text := data.get? "txt"
    foreground := (data.get? "fg").map Color.ofJVal
    background := (data.get? "bg").map Color.ofJVal }

/-- `DrawStyle` (src/main.py:162-177). -/
structure DrawStyle where
  type : String
  icon_index : Option JVal := none
  background : Option Color := none

/-- `DrawStyle.from_api` (src/main.py:169-177). -/
def DrawStyle.from_api (data : JVal) : DrawStyle :=
  { type := data.getStrD "type" "SOLID"
    icon_index := data.get? "sIcoX"
    background := (data.get? "bg").map Color.ofJVal }

/-- `Location` (src/main.py:180-213). -/
structure Location where
  lid : String
  name : String
  type : String
  coordinate : Coordinate
  ext_id : Option JVal := none
  state : String := "F"
  weight : Int := 0
  is_main_mast : Bool := false
  product_classes : Int := 0
  product_refs : List JVal := []
  icon_index : Option JVal := none
  house_number : Option JVal := none

/-- `Location.from_api` (src/main.py:196-213). -/
def Location.from_api (data : JVal) : Location :=
  { lid := data.getStrD "lid" ""
    name := data.getStrD "name" ""
    type := data.getStrD "type" ""
    coordinate :=
      match data.get? "crd" with
      | some crd => Coordinate.from_api crd
      | none => { lat := 0, lon := 0 }
    ext_id := data.get? "extId"
    state := data.getStrD "state" "F"
    weight := data.getIntD "wt" 0
    is_main_mast := data.getBoolD "isMainMast" false
    product_classes := data.getIntD "pCls" 0
    product_refs := data.getArrD "pRefL"
    icon_index := data.get? "icoX"
    house_number := data.get? "H" }

/-- `Product` (src/main.py:216-254). -/
structure Product where
  pid : Option JVal := none
  name : String := ""
  name_short : Option JVal := none
  number : Option JVal := none
  line : Option JVal := none
  line_id : Option JVal := none
  category : Option JVal := none
  category_out : Option JVal := none
  category_code : Option JVal := none
  cls : Int := 0
  operator_index : Option JVal := none
  admin : Option JVal := none
  match_id : Option JVal := none
  icon_index : Option JVal := none
  him_ids : List JVal := []

/-- `Product.from_api` (src/main.py:235-254); `data.get('number') or
ctx.get('num')` is python's truthiness-based fallback. -/
def Product.from_api (data : JVal) : Product :=
  let ctx := data.getVD "prodCtx" (.obj [])
  { pid := data.get? "pid"
    name := data.getStrD "name" ""
    name_short := data.get? "nameS"
    number :=
      match data.get? "number" with
      | some v => if v.truthy then some v else ctx.get? "num"
      | none => ctx.get? "num"
    line := ctx.get? "line"
    line_id := ctx.get? "lineId"
    category := ctx.get? "catIn"
    category_out := ctx.get? "catOut"
    category_code := ctx.get? "catCode"
    cls := data.getIntD "cls" 0
    operator_index := data.get? "oprX"
    admin := ctx.get? "admin"
    match_id := ctx.get? "matchId"
    icon_index := data.get? "icoX"
    him_ids := data.getArrD "himIdL" }

/-- `Operator` (src/main.py:258-262). -/
structure Operator where
  name : String
  icon_index : Option JVal := none

/-- `ServiceDays` (src/main.py:265-279). -/
structure ServiceDays where
  regular : Option JVal := none
  irregular : Option JVal := none
  bitmask : Option JVal := none

/-- `ServiceDays.from_api` (src/main.py:271-279). -/
def ServiceDays.from_api (data : JVal) : ServiceDays :=
  { regular := data.get? "sDaysR"
    irregular := data.get? "sDaysI"
    bitmask := data.get? "sDaysB" }

/-- `ServiceMessage` (src/main.py:282-314). -/
structure ServiceMessage where
  type : String
  code : Option JVal := none
  priority : Int := 0
  text : Option JVal := none
  text_normal : Option JVal := none
  icon_index : Option JVal := none
  style : Option JVal := none
  from_location_index : Option JVal := none
  to_location_index : Option JVal := none
  tags : List JVal := []
  sort_order : Int := 0
  rem_index : Option JVal := none

/-- `ServiceMessage.from_api` (src/main.py:298-314). -/
def ServiceMessage.from_api (data : JVal) : ServiceMessage :=
  { type := data.getStrD "type" ""
    code := data.get? "code"
    priority := data.getIntD "prio" 0
    text := data.get? "txtN"
    text_normal := data.get? "txtS"
    icon_index := data.get? "icoX"
    style := data.get? "sty"
    from_location_index := data.get? "fLocX"
    to_location_index := data.get? "tLocX"
    tags := data.getArrD "tagL"
    sort_order := data.getIntD "sort" 0
    rem_index := data.get? "remX" }

/-- `WalkingSegment` (src/main.py:317-341). -/
structure WalkingSegment where
  name : Option JVal := none
  instruction : Option JVal := none
  orientation : Option JVal := none
  route_type : Option JVal := none
  distance : Int := 0
  poly_start : Int := 0
  poly_end : Int := 0
  icon_index : Option JVal := none

/-- `WalkingSegment.from_api` (src/main.py:329-341). -/
def WalkingSegment.from_api (data : JVal) : WalkingSegment :=
  { name := data.get? "name"
    instruction := data.get? "manTx"
    orientation := data.get? "ori"
    route_type := data.get? "rType"
    distance := data.getIntD "dist" 0
    poly_start := data.getIntD "polyS" 0
    poly_end := data.getIntD "polyE" 0
    icon_index := data.get? "icoX" }

/-- `Polyline` (src/main.py:344-354). -/
structure Polyline where
  encoded : String
  coordinates : List Coordinate := []
  location_refs : List JVal := []
  draw_style_index : Option JVal := none
  delta : Bool := true
  dimension : Int := 2
  encoding_start : Option JVal := none
  encoding_format : Option JVal := none

/-- The `Polyline(...)` construction shared verbatim by
`_parse_common_data` (src/main.py:1077-1086) and `get_walking_details`
(src/main.py:898-907), with `s` the entry's `crdEncYX` string. -/
def mkPolyline (s : String) (pd : JVal) : Polyline :=
  { encoded := s
    coordinates := (decode_polyline s).map (fun q => { lat := q.1, lon := q.2 })
    location_refs := pd.getArrD "ppLocRefL"
    draw_style_index := pd.get? "lDrawStyleX"
    delta := pd.getBoolD "delta" true
    dimension := pd.getIntD "dim" 2
    encoding_start := pd.get? "crdEncS"
    encoding_format := pd.get? "crdEncF" }

/-- `Stop` (src/main.py:357-383). -/
structure Stop where
  location_index : Int
  arrival_time : Option JVal := none
  departure_time : Option JVal := none
  arrival_platform : Option JVal := none
  departure_platform : Option JVal := none
  arrival_delay : Option JVal := none
  departure_delay : Option JVal := none
  cancelled : Bool := false
  additional : Bool := false

/-- `Stop.from_api` (src/main.py:370-383). -/
def Stop.from_api (data : JVal) : Stop :=
  { location_index := data.getIntD "locX" (-1)
    arrival_time := data.get? "aTimeS"
    departure_time := data.get? "dTimeS"
    arrival_platform := data.get? "aPlatfS"
    departure_platform := data.get? "dPlatfS"
    arrival_delay := data.get? "aDelayS"
    departure_delay := data.get? "dDelayS"
    cancelled := data.getBoolD "cancelled" false
    additional := data.getBoolD "additional" false }

/-- `Journey` (src/main.py:386-400). -/
structure Journey where
  jid : String
  date : String
  product_index : Option JVal := none
  direction_text : Option JVal := none
  direction_flag : Option JVal := none
  status : Option JVal := none
  is_reachable : Bool := true
  stops : List Stop := []
  polyline_indices : List JVal := []
  messages : List ServiceMessage := []
  subscription : String := "N"
  ctx_recon : Option JVal := none

/-- `GisInfo` (src/main.py:403-411). -/
structure GisInfo where
  distance : Int
  duration_seconds : String
  ctx : String
  provider : String := "E"
  segments : List WalkingSegment := []
  polyline : Option Polyline := none

/-- `TripSection` (src/main.py:414-426).  `call_ahead_service` receives the
raw wire value of `dCaS`, so it is kept dynamic. -/
structure TripSection where
  type : TransportMode
  departure : Option JVal := none
  arrival : Option JVal := none
  journey : Option Journey := none
  gis : Option GisInfo := none
  polyline_indices : List JVal := []
  messages : List ServiceMessage := []
  call_ahead_service : JVal := .bool false
  booking_required : Bool := false
  booking_deadline_minutes : Option Int := none

/-- `FareSet` (src/main.py:429-436); never populated by the parser. -/
structure FareSet where
  name : Option JVal := none
  description : Option JVal := none
  price : Option JVal := none
  currency : Option JVal := none
  ticket_ids : List JVal := []

/-- `TariffResult` (src/main.py:439-445). -/
structure TariffResult where
  status_code : String
  fare_sets : List FareSet := []
  external_content : Option JVal := none
  messages : List JVal := []

/-- `Trip` (src/main.py:468-485). -/
structure Trip where
  id : String
  date : String
  duration : String
  changes : Int
  departure_time : String
  arrival_time : String
  sections : List TripSection
  service_days : Option ServiceDays := none
  tariff_result : Option TariffResult := none
  messages : List ServiceMessage := []
  subscription : String := "N"
  checksum : Option JVal := none
  checksum_dti : Option JVal := none
  ctx_recon : Option JVal := none
  rec_state : String := "U"

/-- `CommonData` (src/main.py:488-502); the integer-indexed python dicts are
association lists keyed by the enumeration index. -/
structure CommonData where
  locations : List (Nat × Location) := []
  products : List (Nat × Product) := []
  polylines : List (Nat × Polyline) := []
  operators : List Operator := []
  remarks : List ServiceMessage := []
  him_messages : List (String × ServiceMessage) := []
  icons : List Icon := []
  directions : List JVal := []
  draw_styles : List DrawStyle := []
  layers : List JVal := []
  coordinate_systems : List JVal := []
  walking_polylines : List (String × Polyline) := []

/-! ## The shared-table resolver (`_parse_common_data`, src/main.py:1058-1119) -/

/-- `enumerate` over a list starting at `n`: the positional index attached
to each entry. -/
def idxFrom {α : Type} (n : Nat) : List α → List (Nat × α)
  | [] => []
  | x :: xs => (n, x) :: idxFrom (n + 1) xs

/-- The body of the polyline loop of `_parse_common_data`
(src/main.py:1074-1086): an entry is stored only when it carries the
`crdEncYX` geometry string. -/
def polyEntry (pd : JVal) : Option Polyline :=
  match pd.get? "crdEncYX" with
  | some (.str s) => some (mkPolyline s pd)
  | _ => none

/-- `_parse_common_data` (src/main.py:1058-1119).  Each `if key in common`
guard followed by an enumeration loop is a positional table built from the
list field (absent or non-list field: empty table). -/
def _parse_common_data (common : JVal) : CommonData :=
  { locations :=
      (idxFrom 0 (common.getArrD "locL")).map
        (fun p => (p.1, Location.from_api p.2))
    products :=
      (idxFrom 0 (common.getArrD "prodL")).map
        (fun p => (p.1, Product.from_api p.2))
    polylines :=
      (idxFrom 0 (common.getArrD "polyL")).filterMap
        (fun p => (polyEntry p.2).map (fun pl => (p.1, pl)))
    operators :=
      (common.getArrD "opL").map
        (fun op => { name := op.getStrD "name" "", icon_index := op.get? "icoX" })
    remarks := (common.getArrD "remL").map ServiceMessage.from_api
    him_messages := []
    icons := (common.getArrD "icoL").map Icon.from_api
    directions := common.getArrD "dirL"
    draw_styles := (common.getArrD "lDrawStyleL").map DrawStyle.from_api
    layers := common.getArrD "layerL"
    coordinate_systems := common.getArrD "crdSysL"
    walking_polylines := [] }

/-! ## The section/trip assembler (`_parse_trip`, src/main.py:1121-1253) -/

/-- `if section.departure and 'dCaS' in section.departure:` followed by the
three assignments of src/main.py:1135-1138: raw `dCaS` value into
`call_ahead_service`, `booking_required = True`,
`booking_deadline_minutes = 120` (a fixed client-side constant).  An object
carrying the key is nonempty, hence truthy. -/
def callAheadTriple (departure : Option JVal) : JVal × Bool × Option Int :=
  match departure with
  | some d =>
    if d.truthy && d.hasKey "dCaS" then
      match d.get? "dCaS" with
      | some v => (v, true, some 120)
      | none => (.bool false, false, none)
    else (.bool false, false, none)
  | none => (.bool false, false, none)

/-- The `GisInfo(...)` construction of the WALK branch
(src/main.py:1141-1148). -/
def parseGis (g : JVal) : GisInfo :=
  { distance := g.getIntD "dist" 0
    duration_seconds := g.getStrD "durS" ""
    ctx := g.getStrD "ctx" ""
    provider := g.getStrD "gisPrvr" "E" }

/-- The `Journey(...)` constructor call shared verbatim by the TETA branch
(src/main.py:1153-1163) and the JNY branch (src/main.py:1177-1187). -/
def journeyBase (jd : JVal) : Journey :=
  { jid := jd.getStrD "jid" ""
    date := jd.getStrD "date" ""
    product_index := jd.get? "prodX"
    direction_text := jd.get? "dirTxt"
    direction_flag := jd.get? "dirFlg"
    status := jd.get? "status"
    is_reachable := jd.getBoolD "isRchbl" true
    subscription := jd.getStrD "subscr" "N"
    ctx_recon := jd.get? "ctxRecon" }

/-- `if 'polyG' in jny_data and 'polyXL' in jny_data['polyG']:` then the raw
index list (src/main.py:1166-1167, 1195-1196). -/
def polyIndices (jd : JVal) : List JVal :=
  match jd.get? "polyG" with
  | some pg => if pg.hasKey "polyXL" then pg.getArrD "polyXL" else []
  | none => []

/-- The TETA (dial-a-ride) journey branch (src/main.py:1151-1172): base
journey, polyline indices, journey messages — and no stop-list parse. -/
def parseJourneyTETA (jd : JVal) : Journey :=
  { journeyBase jd with
    polyline_indices := polyIndices jd
    messages := (jd.getArrD "msgL").map ServiceMessage.from_api }

/-- The JNY (scheduled journey) branch (src/main.py:1175-1201): base
journey, stop list, polyline indices, journey messages. -/
def parseJourneyJNY (jd : JVal) : Journey :=
  { journeyBase jd with
    stops := (jd.getArrD "stopL").map Stop.from_api
    polyline_indices := polyIndices jd
    messages := (jd.getArrD "msgL").map ServiceMessage.from_api }

/-- The section-loop body of `_parse_trip` (src/main.py:1127-1208) once the
mode tag has been classified; everything after the `TransportMode(...)` call
is total. -/
def parseSectionCore (ty : TransportMode) (sd : JVal) : TripSection :=
  let departure := sd.get? "dep"
  let ca := callAheadTriple departure
  { type := ty
    departure := departure
    arrival := sd.get? "arr"
    journey :=
      if ty = TransportMode.TETA && sd.hasKey "jny" then
        some (parseJourneyTETA (sd.getVD "jny" .null))
      else if ty = TransportMode.JNY && sd.hasKey "jny" then
        some (parseJourneyJNY (sd.getVD "jny" .null))
      else none
    gis :=
      if ty = TransportMode.WALK && sd.hasKey "gis" then
        some (parseGis (sd.getVD "gis" .null))
      else none
    polyline_indices := []
    messages := (sd.getArrD "msgL").map ServiceMessage.from_api
    call_ahead_service := ca.1
    booking_required := ca.2.1
    booking_deadline_minutes := ca.2.2 }

/-- One iteration of the section loop of `_parse_trip`: `sec_data['type']`
raises `KeyError` when the key is absent and `TransportMode(...)` raises
`ValueError` on an unknown tag; both abort the connection. -/
def parseSection (sd : JVal) : Option TripSection :=
  match sd.get? "type" with
  | some (.str ts) =>
    match TransportMode.ofString? ts with
    | some ty => some (parseSectionCore ty sd)
    | none => none
  | _ => none

/-- The trip-level fields of `_parse_trip` (src/main.py:1210-1248), copied
verbatim from the connection record around the assembled sections. -/
def tripOf (conn : JVal) (sections : List TripSection) : Trip :=
  { id := conn.getStrD "cid" ""
    date := conn.getStrD "date" ""
    duration := conn.getStrD "dur" ""
    changes := conn.getIntD "chg" 0
    departure_time := (conn.getVD "dep" (.obj [])).getStrD "dTimeS" ""
    arrival_time := (conn.getVD "arr" (.obj [])).getStrD "aTimeS" ""
    sections := sections
    service_days := (conn.get? "sDays").map ServiceDays.from_api
    tariff_result :=
      (conn.get? "trfRes").map (fun trf =>
        { status_code := trf.getStrD "statusCode" ""
          fare_sets := []
          external_content := trf.get? "extCont"
          messages := trf.getArrD "msgL" })
    messages := (conn.getArrD "msgL").map ServiceMessage.from_api
    subscription := conn.getStrD "conSubscr" "N"
    checksum := conn.get? "cksum"
    checksum_dti := conn.get? "cksumDti"
    ctx_recon := conn.get? "ctxRecon"
    rec_state := conn.getStrD "recState" "U" }

/-- The section loop of `_parse_trip` (src/main.py:1127-1208): sections
accumulate in order; a raise in any iteration aborts the whole loop. -/
def parseSections : List JVal → Option (List TripSection)
  | [] => some []
  | sd :: rest =>
    match parseSection sd with
    | none => none
    | some s =>
      match parseSections rest with
      | none => none
      | some ss => some (s :: ss)

/-- `_parse_trip` (src/main.py:1121-1253).  The enclosing
`try: ... except: return None` makes any structural failure of the section
loop discard the whole connection; `conn.get('secL', [])` makes a
connection without sections parse to a section-less trip. -/
def _parse_trip (conn : JVal) : Option Trip :=
  match conn.get? "secL" with
  | none => some (tripOf conn [])
  | some (.arr xs) =>
    match parseSections xs with
    | some sections => some (tripOf conn sections)
    | none => none
  | some _ => none

/-- The bulk-parse of `plan_trip` (src/main.py:801-804): every connection is
assembled and the `None` results are filtered out. -/
def parse_trips (conns : List JVal) : List Trip :=
  conns.filterMap _parse_trip

/-! ## The walking-route fetch (`get_walking_details`, src/main.py:862-917) -/

/-- The polyline-extraction loop of `get_walking_details`
(src/main.py:893-907) over `res['common']['polyL']`: coordinates of every
geometry-bearing entry accumulate, the `polyline` variable is re-assigned so
the last entry wins. -/
def collectGeom : (List Coordinate × Option Polyline) → List JVal →
    List Coordinate × Option Polyline
  | acc, [] => acc
  | acc, pd :: rest =>
    match pd.get? "crdEncYX" with
    | some (.str s) =>
      collectGeom
        (acc.1 ++ (decode_polyline s).map (fun q => { lat := q.1, lon := q.2 }),
         some (mkPolyline s pd))
        rest
    | _ => collectGeom acc rest

/-- The walking-segment extraction loop of `get_walking_details`
(src/main.py:910-915) over one connection's sections. -/
def collectSegs (secs : List JVal) : List WalkingSegment :=
  secs.foldl
    (fun acc sec =>
      match sec.get? "gis" with
      | some g =>
        match g.get? "segL" with
        | some (.arr segs) => acc ++ segs.map WalkingSegment.from_api
        | _ => acc
      | none => acc)
    []

/-- Processing of one entry of `svcResL` by `get_walking_details`
(src/main.py:888-915). -/
def gwdStep (acc : List Coordinate × List WalkingSegment × Option Polyline)
    (svc : JVal) : List Coordinate × List WalkingSegment × Option Polyline :=
  match svc.get? "meth" with
  | some (.str m) =>
    if m = "GisRoute" && svc.hasKey "res" then
      let res := svc.getVD "res" .null
      let geo :=
        match res.get? "common" with
        | some cm =>
          if cm.hasKey "polyL" then collectGeom (acc.1, acc.2.2) (cm.getArrD "polyL")
          else (acc.1, acc.2.2)
        | none => (acc.1, acc.2.2)
      let segs :=
        if res.hasKey "conL" then
          (res.getArrD "conL").foldl
            (fun sacc con => sacc ++ collectSegs (con.getArrD "secL")) acc.2.1
        else acc.2.1
      (geo.1, segs, geo.2)
    else acc
  | _ => acc

/-- `get_walking_details` (src/main.py:862-917) applied to an
already-received raw response; `none` models a failed transport request
(`_make_request` returning `None`). -/
def get_walking_details (response : Option JVal) :
    List Coordinate × List WalkingSegment × Option Polyline :=
  match response with
  | none => ([], [], none)
  | some r =>
    if !r.truthy || !r.hasKey "svcResL" then ([], [], none)
    else (r.getArrD "svcResL").foldl gwdStep ([], [], none)

/-! ## The walking-geometry fill of `plan_trip` (src/main.py:806-820) -/

/-- The mutable walking-route cache of one response cycle: the
`walking_polylines` table of `CommonData`, plus an instrumentation log
recording the token of every `get_walking_details` call actually issued. -/
structure FillState where
  walking_polylines : List (String × Polyline) := []
  fetchLog : List String := []

/-- The per-section body of the walking fill (src/main.py:808-820): for an
eligible WALK section, a cache hit attaches the cached polyline; a miss
fetches, and only a successful fetch stores the polyline under the token and
attaches both polyline and segments to the section. -/
def fillSection (oracle : String → Option JVal) (st : FillState)
    (sec : TripSection) : FillState × TripSection :=
  match sec.gis with
  | none => (st, sec)
  | some g =>
    if sec.type = TransportMode.WALK ∧ g.ctx ≠ "" then
      match st.walking_polylines.lookup g.ctx with
      | some p => (st, { sec with gis := some { g with polyline := some p } })
      | none =>
        let r := get_walking_details (oracle g.ctx)
        match r.2.2 with
        | some p =>
          ({ walking_polylines := (g.ctx, p) :: st.walking_polylines,
             fetchLog := st.fetchLog ++ [g.ctx] },
           { sec with gis := some { g with polyline := some p, segments := r.2.1 } })
        | none => ({ st with fetchLog := st.fetchLog ++ [g.ctx] }, sec)
    else (st, sec)

/-- The walking fill over the sections of one trip, in section order. -/
def fillSections (oracle : String → Option JVal) :
    FillState → List TripSection → FillState × List TripSection
  | st, [] => (st, [])
  | st, s :: rest =>
    let p1 := fillSection oracle st s
    let p2 := fillSections oracle p1.1 rest
    (p2.1, p1.2 :: p2.2)

/-- The walking fill applied to one trip (src/main.py:808: the loop over
`trip.sections`). -/
def fillTrip (oracle : String → Option JVal) (st : FillState) (t : Trip) :
    FillState × Trip :=
  let p := fillSections oracle st t.sections
  (p.1, { t with sections := p.2 })

/-- The walking fill over a whole result set: trips in result order share
the one cache (src/main.py:801-820 with `auto_fetch_walking` and
`get_polylines` enabled). -/
def fillTrips (oracle : String → Option JVal) :
    FillState → List Trip → FillState × List Trip
  | st, [] => (st, [])
  | st, t :: rest =>
    let p1 := fillTrip oracle st t
    let p2 := fillTrips oracle p1.1 rest
    (p2.1, p1.2 :: p2.2)

/-- A section bears token `t` when it is a WALK section whose `GisInfo`
carries `t` as route-context token. -/
def bearsToken (t : String) (sec : TripSection) : Prop :=
  sec.type = TransportMode.WALK ∧ sec.gis.map GisInfo.ctx = some t

/-! ## Facts about the assembler -/

/-- A successfully classified section is exactly the total core applied at
some mode. -/
lemma parseSection_shape {sd : JVal} {s : TripSection}
    (h : parseSection sd = some s) : ∃ ty, s = parseSectionCore ty sd := by
  unfold parseSection at h
  split at h
  · split at h
    · next ty _ => exact ⟨ty, (Option.some.inj h).symm⟩
    · simp at h
  · simp at h

/-- A departure object that carries the `dCaS` key is truthy, so the
call-ahead branch fires and copies the raw flag value. -/
lemma callAheadTriple_of_present {d v : JVal} (h : d.get? "dCaS" = some v) :
    callAheadTriple (some d) = (v, true, some 120) := by
  have htr : d.truthy = true := by
    cases d <;> simp [JVal.get?] at h
    case obj fs =>
      cases fs with
      | nil => simp [List.lookup] at h
      | cons p ps => simp [JVal.truthy]
  have hk : d.hasKey "dCaS" = true := by simp [JVal.hasKey, h]
  simp [callAheadTriple, htr, hk, h]

/-- Claim C5: every assembled section of mode TETA whose departure record
carries the `dCaS` call-ahead flag has `booking_required = true` and
`booking_deadline_minutes = 120`, a fixed client-side constant, regardless
of all other fields. -/
theorem c5_teta_call_ahead_policy (sd : JVal) (s : TripSection) (d : JVal)
    (hp : parseSection sd = some s) (hteta : s.type = TransportMode.TETA)
    (hdep : s.departure = some d) (hflag : d.hasKey "dCaS" = true) :
    s.booking_required = true ∧ s.booking_deadline_minutes = some 120 := by
  obtain ⟨ty, rfl⟩ := parseSection_shape hp
  have hdep2 : sd.get? "dep" = some d := hdep
  rcases Option.isSome_iff_exists.mp hflag with ⟨v, hv⟩
  have hca : callAheadTriple (sd.get? "dep") = (v, true, some 120) := by
    rw [hdep2]; exact callAheadTriple_of_present hv
  constructor
  · show (callAheadTriple (sd.get? "dep")).2.1 = true
    rw [hca]
  · show (callAheadTriple (sd.get? "dep")).2.2 = some 120
    rw [hca]

/-- Concrete TETA section exercising claim C5. -/
def c5sec : JVal :=
  .obj [("type", .str "TETA"), ("dep", .obj [("dCaS", .bool true)])]

/-- Witness for claim C5 at a concrete TETA section with the call-ahead
flag. -/
theorem c5_teta_call_ahead_policy_witness :
    (parseSectionCore TransportMode.TETA c5sec).booking_required = true ∧
    (parseSectionCore TransportMode.TETA c5sec).booking_deadline_minutes = some 120 :=
  c5_teta_call_ahead_policy c5sec (parseSectionCore TransportMode.TETA c5sec)
    (.obj [("dCaS", .bool true)]) rfl rfl rfl rfl

/-- Claim C8: for a section of any transport mode, presence of the `dCaS`
key in the departure bundle alone makes the assembler set
`booking_required = true`, `booking_deadline_minutes = 120` and copy the raw
`dCaS` value — even a false one — into `call_ahead_service`. -/
theorem c8_call_ahead_any_mode (sd : JVal) (s : TripSection) (d v : JVal)
    (hp : parseSection sd = some s) (hdep : s.departure = some d)
    (hv : d.get? "dCaS" = some v) :
    s.booking_required = true ∧ s.booking_deadline_minutes = some 120 ∧
    s.call_ahead_service = v := by
  obtain ⟨ty, rfl⟩ := parseSection_shape hp
  have hdep2 : sd.get? "dep" = some d := hdep
  have hca : callAheadTriple (sd.get? "dep") = (v, true, some 120) := by
    rw [hdep2]; exact callAheadTriple_of_present hv
  refine ⟨?_, ?_, ?_⟩
  · show (callAheadTriple (sd.get? "dep")).2.1 = true
    rw [hca]
  · show (callAheadTriple (sd.get? "dep")).2.2 = some 120
    rw [hca]
  · show (callAheadTriple (sd.get? "dep")).1 = v
    rw [hca]

/-- Concrete CAR section whose departure carries `dCaS: false`. -/
def c8sec : JVal :=
  .obj [("type", .str "CAR"), ("dep", .obj [("dCaS", .bool false)])]

/-- Witness for claim C8: a non-TETA section with a false `dCaS` value still
gets `booking_required = true`, and the false raw value is copied. -/
theorem c8_call_ahead_any_mode_witness :
    (parseSectionCore TransportMode.CAR c8sec).booking_required = true ∧
    (parseSectionCore TransportMode.CAR c8sec).booking_deadline_minutes = some 120 ∧
    (parseSectionCore TransportMode.CAR c8sec).call_ahead_service = .bool false :=
  c8_call_ahead_any_mode c8sec (parseSectionCore TransportMode.CAR c8sec)
    (.obj [("dCaS", .bool false)]) (.bool false) rfl rfl rfl

/-- Claim C9: the journey attached to an assembled TETA section always has
an empty stop list, even when the raw journey payload carries `stopL`: the
stop-list parse happens only in the JNY branch. -/
theorem c9_teta_journey_stops_empty (sd : JVal) (s : TripSection) (j : Journey)
    (hp : parseSection sd = some s) (hteta : s.type = TransportMode.TETA)
    (hj : s.journey = some j) : j.stops = [] := by
  obtain ⟨ty, rfl⟩ := parseSection_shape hp
  have hty : ty = TransportMode.TETA := hteta
  subst hty
  have hj2 :
      (if TransportMode.TETA = TransportMode.TETA && sd.hasKey "jny" then
        some (parseJourneyTETA (sd.getVD "jny" .null))
      else if TransportMode.TETA = TransportMode.JNY && sd.hasKey "jny" then
        some (parseJourneyJNY (sd.getVD "jny" .null))
      else none) = some j := hj
  by_cases hk : sd.hasKey "jny" = true
  · rw [if_pos (by simp [hk])] at hj2
    have := Option.some.inj hj2
    rw [← this]
    rfl
  · rw [if_neg (by simp [hk]), if_neg (by simp)] at hj2
    exact absurd hj2 (by simp)

/-- Concrete TETA section whose journey payload carries a `stopL` list. -/
def c9sec : JVal :=
  .obj [("type", .str "TETA"),
        ("jny", .obj [("jid", .str "j1"),
                      ("stopL", .arr [.obj [("locX", .num 4)]])])]

/-- Witness for claim C9: even with `stopL` present on the wire, the TETA
journey's stops are empty. -/
theorem c9_teta_journey_stops_empty_witness :
    (parseJourneyTETA (c9sec.getVD "jny" .null)).stops = [] :=
  c9_teta_journey_stops_empty c9sec (parseSectionCore TransportMode.TETA c9sec)
    (parseJourneyTETA (c9sec.getVD "jny" .null)) rfl rfl rfl

/-- A section list containing one unclassifiable record makes the whole
section loop fail. -/
lemma parseSections_none {xs : List JVal} {sd : JVal} (hmem : sd ∈ xs)
    (hf : parseSection sd = none) : parseSections xs = none := by
  induction xs with
  | nil => cases hmem
  | cons x rest ih =>
    unfold parseSections
    rcases List.mem_cons.mp hmem with h | h
    · rw [h] at hf
      rw [hf]
    · cases hx : parseSection x
      · rfl
      · rw [ih h]

/-- Claim C3: a connection with a structurally invalid section (here:
missing `type` key) assembles to `None`, and a bulk parse containing it
still returns every other connection's trip — the batch is the concatenation
of the parses around the bad record, never aborted. -/
theorem c3_soft_failure_per_connection (conn : JVal) (secs : List JVal)
    (sd : JVal) (hsec : conn.get? "secL" = some (.arr secs)) (hmem : sd ∈ secs)
    (hty : sd.get? "type" = none) :
    _parse_trip conn = none ∧
    ∀ pre post,
      parse_trips (pre ++ conn :: post) = parse_trips pre ++ parse_trips post := by
  have hsd : parseSection sd = none := by
    unfold parseSection
    rw [hty]
  have hnone : _parse_trip conn = none := by
    unfold _parse_trip
    rw [hsec]
    dsimp only
    rw [parseSections_none hmem hsd]
  refine ⟨hnone, fun pre post => ?_⟩
  unfold parse_trips
  rw [List.filterMap_append]
  congr 1
  simp [List.filterMap_cons, hnone]

/-- Concrete connection whose single section lacks the `type` key. -/
def c3bad : JVal := .obj [("cid", .str "bad"), ("secL", .arr [.obj []])]

/-- Concrete valid connection without sections. -/
def c3good1 : JVal := .obj [("cid", .str "g1")]

/-- Concrete valid connection with one WALK section. -/
def c3good2 : JVal :=
  .obj [("cid", .str "g2"), ("secL", .arr [.obj [("type", .str "WALK")]])]

/-- Witness for claim C3: the bad connection yields `None`, the batch around
it splits into the parses of its neighbours, and both valid neighbours
yield their trips. -/
theorem c3_soft_failure_per_connection_witness :
    _parse_trip c3bad = none ∧
    parse_trips [c3good1, c3bad, c3good2] =
      parse_trips [c3good1] ++ parse_trips [c3good2] ∧
    (parse_trips [c3good1, c3bad, c3good2]).length = 2 := by
  have h := c3_soft_failure_per_connection c3bad [.obj []] (.obj []) rfl
    (List.mem_singleton.mpr rfl) rfl
  have hsplit : parse_trips [c3good1, c3bad, c3good2] =
      parse_trips [c3good1] ++ parse_trips [c3good2] := h.2 [c3good1] [c3good2]
  exact ⟨h.1, hsplit, by rw [hsplit]; rfl⟩

/-! ## Facts about the resolver's positional tables -/

/-- Keys below the starting index never occur in a positionally indexed,
filtered table. -/
lemma lookup_idxFrom_filterMap_lt {α β : Type} (e : α → Option β) :
    ∀ (xs : List α) (n k : Nat), k < n →
      ((idxFrom n xs).filterMap (fun p => (e p.2).map (fun b => (p.1, b)))).lookup k
        = none := by
  intro xs
  induction xs with
  | nil => intro n k _; rfl
  | cons x rest ih =>
    intro n k hk
    unfold idxFrom
    rw [List.filterMap_cons]
    have hkn : (k == n) = false := beq_eq_false_iff_ne.mpr (by omega)
    cases hx : e x with
    | none =>
      simp only [Option.map_none']
      exact ih (n + 1) k (by omega)
    | some b =>
      simp only [Option.map_some']
      simp only [List.lookup, hkn]
      exact ih (n + 1) k (by omega)

/-- Lookup in a positionally indexed, filtered table: position `i` of the
input list alone decides the entry found at key `n + i`. -/
lemma lookup_idxFrom_filterMap {α β : Type} (e : α → Option β) :
    ∀ (xs : List α) (n i : Nat),
      ((idxFrom n xs).filterMap (fun p => (e p.2).map (fun b => (p.1, b)))).lookup (n + i)
        = (xs.get? i).bind e := by
  intro xs
  induction xs with
  | nil => intro n i; rfl
  | cons x rest ih =>
    intro n i
    unfold idxFrom
    rw [List.filterMap_cons]
    cases hx : e x with
    | none =>
      simp only [Option.map_none']
      cases i with
      | zero =>
        rw [Nat.add_zero, lookup_idxFrom_filterMap_lt e rest (n + 1) n (by omega)]
        simp [hx]
      | succ j =>
        rw [show n + (j + 1) = (n + 1) + j by omega]
        exact ih (n + 1) j
    | some b =>
      simp only [Option.map_some']
      cases i with
      | zero =>
        simp only [Nat.add_zero, List.lookup, beq_self_eq_true]
        simp [hx]
      | succ j =>
        have hkn : (n + (j + 1) == n) = false := beq_eq_false_iff_ne.mpr (by omega)
        simp only [List.lookup, hkn]
        rw [show n + (j + 1) = (n + 1) + j by omega]
        exact ih (n + 1) j

/-- Lookup in an unfiltered positionally indexed table. -/
lemma lookup_idxFrom_map {α β : Type} (f : α → β) :
    ∀ (xs : List α) (n i : Nat),
      ((idxFrom n xs).map (fun p => (p.1, f p.2))).lookup (n + i)
        = (xs.get? i).map f := by
  intro xs
  induction xs with
  | nil => intro n i; rfl
  | cons x rest ih =>
    intro n i
    unfold idxFrom
    rw [List.map_cons]
    cases i with
    | zero =>
      simp only [Nat.add_zero, List.lookup, beq_self_eq_true]
      rfl
    | succ j =>
      have hkn : (n + (j + 1) == n) = false := beq_eq_false_iff_ne.mpr (by omega)
      simp only [List.lookup, hkn]
      rw [show n + (j + 1) = (n + 1) + j by omega]
      exact ih (n + 1) j

/-- The keys of an unfiltered positionally indexed table are exactly the
consecutive indices, in input order. -/
lemma map_fst_idxFrom_map {α β : Type} (f : α → β) :
    ∀ (xs : List α) (n : Nat),
      ((idxFrom n xs).map (fun p => (p.1, f p.2))).map Prod.fst
        = List.range' n xs.length := by
  intro xs
  induction xs with
  | nil => intro n; rfl
  | cons x rest ih =>
    intro n
    unfold idxFrom
    rw [List.map_cons, List.map_cons]
    show n :: ((idxFrom (n + 1) rest).map (fun p => (p.1, f p.2))).map Prod.fst
      = List.range' n (rest.length + 1)
    rw [ih (n + 1)]
    rfl

/-- Claim C4 counterexample block: one polyline entry carrying only
drawing-style metadata, no `crdEncYX` geometry string. -/
def c4block : JVal := .obj [("polyL", .arr [.obj [("lDrawStyleX", .num 0)]])]

/-- Counterexample to claim C4 as stated: resolving a common block whose
single polyline entry lacks `crdEncYX` yields no Polyline at all at index 0
(a missing table entry), not a Polyline with an empty coordinate
sequence. -/
theorem c4_missing_geometry_counterexample :
    ¬ ∃ p, (_parse_common_data c4block).polylines.lookup 0 = some p ∧
      p.coordinates = [] := by
  rintro ⟨p, hp, _⟩
  have hnone : (_parse_common_data c4block).polylines.lookup 0 = none := rfl
  rw [hnone] at hp
  exact Option.noConfusion hp

/-- Claim C4 (amended): a polyline entry lacking the `crdEncYX` geometry
string is skipped — the resolved table has no entry at that positional
index; no error is raised (resolution is total). -/
theorem c4_missing_geometry_skipped (common : JVal) (xs : List JVal)
    (i : Nat) (pd : JVal) (hpoly : common.get? "polyL" = some (.arr xs))
    (hi : xs.get? i = some pd) (hno : pd.get? "crdEncYX" = none) :
    (_parse_common_data common).polylines.lookup i = none := by
  have harr : common.getArrD "polyL" = xs := by
    unfold JVal.getArrD
    rw [hpoly]
  show ((idxFrom 0 (common.getArrD "polyL")).filterMap
      (fun p => (polyEntry p.2).map (fun pl => (p.1, pl)))).lookup i = none
  rw [harr]
  have h0 := lookup_idxFrom_filterMap polyEntry xs 0 i
  rw [Nat.zero_add] at h0
  rw [h0, hi]
  show polyEntry pd = none
  unfold polyEntry
  rw [hno]

/-- Witness for the amended claim C4 at the concrete metadata-only block. -/
theorem c4_missing_geometry_skipped_witness :
    (_parse_common_data c4block).polylines.lookup 0 = none :=
  c4_missing_geometry_skipped c4block [.obj [("lDrawStyleX", .num 0)]] 0
    (.obj [("lDrawStyleX", .num 0)]) rfl rfl rfl

/-- Claim C6 counterexample block: two polyline entries, the first of which
lacks the geometry string. -/
def c6block : JVal :=
  .obj [("polyL", .arr [.obj [("lDrawStyleX", .num 1)],
                        .obj [("crdEncYX", .str "??")]])]

/-- Counterexample to claim C6 as stated: a common block with two entries in
the `polyL` list field does not get indices 0..1 assigned — index 0 is
absent from the resolved polyline table because its entry lacks
`crdEncYX`. -/
theorem c6_positional_counterexample :
    ¬ ∃ p, (_parse_common_data c6block).polylines.lookup 0 = some p := by
  rintro ⟨p, hp⟩
  have hnone : (_parse_common_data c6block).polylines.lookup 0 = none := rfl
  rw [hnone] at hp
  exact Option.noConfusion hp

/-- Claim C6 (amended): resolving assigns positional indices in exact input
order — for locations and products the keys are exactly `0..N-1` and the
entry at key `i` is the parse of input entry `i`; for polylines the entry at
key `i` is the parse of input entry `i` when it bears `crdEncYX` and absent
otherwise; a missing list field yields an empty table rather than an error;
and re-resolving the same input produces an equal result. -/
theorem c6_resolver_positional_tables (c : JVal) :
    (∀ xs, c.get? "locL" = some (.arr xs) →
      (_parse_common_data c).locations.map Prod.fst = List.range xs.length ∧
      ∀ i x, xs.get? i = some x →
        (_parse_common_data c).locations.lookup i = some (Location.from_api x)) ∧
    (c.get? "locL" = none → (_parse_common_data c).locations = []) ∧
    (∀ xs, c.get? "prodL" = some (.arr xs) →
      (_parse_common_data c).products.map Prod.fst = List.range xs.length ∧
      ∀ i x, xs.get? i = some x →
        (_parse_common_data c).products.lookup i = some (Product.from_api x)) ∧
    (c.get? "prodL" = none → (_parse_common_data c).products = []) ∧
    (∀ xs, c.get? "polyL" = some (.arr xs) →
      ∀ i pd, xs.get? i = some pd →
        (_parse_common_data c).polylines.lookup i = polyEntry pd) ∧
    (c.get? "polyL" = none → (_parse_common_data c).polylines = []) ∧
    _parse_common_data c = _parse_common_data c := by
  refine ⟨?_, ?_, ?_, ?_, ?_, ?_, rfl⟩
  · intro xs hxs
    have harr : c.getArrD "locL" = xs := by
      unfold JVal.getArrD
      rw [hxs]
    constructor
    · show ((idxFrom 0 (c.getArrD "locL")).map
          (fun p => (p.1, Location.from_api p.2))).map Prod.fst = List.range xs.length
      rw [harr, map_fst_idxFrom_map Location.from_api xs 0, List.range_eq_range']
    · intro i x hi
      show ((idxFrom 0 (c.getArrD "locL")).map
          (fun p => (p.1, Location.from_api p.2))).lookup i
        = some (Location.from_api x)
      rw [harr]
      have h0 := lookup_idxFrom_map Location.from_api xs 0 i
      rw [Nat.zero_add] at h0
      rw [h0, hi]
      rfl
  · intro hno
    show ((idxFrom 0 (c.getArrD "locL")).map
        (fun p => (p.1, Location.from_api p.2))) = []
    have harr : c.getArrD "locL" = [] := by
      unfold JVal.getArrD
      rw [hno]
    rw [harr]
    rfl
  · intro xs hxs
    have harr : c.getArrD "prodL" = xs := by
      unfold JVal.getArrD
      rw [hxs]
    constructor
    · show ((idxFrom 0 (c.getArrD "prodL")).map
          (fun p => (p.1, Product.from_api p.2))).map Prod.fst = List.range xs.length
      rw [harr, map_fst_idxFrom_map Product.from_api xs 0, List.range_eq_range']
    · intro i x hi
      show ((idxFrom 0 (c.getArrD "prodL")).map
          (fun p => (p.1, Product.from_api p.2))).lookup i
        = some (Product.from_api x)
      rw [harr]
      have h0 := lookup_idxFrom_map Product.from_api xs 0 i
      rw [Nat.zero_add] at h0
      rw [h0, hi]
      rfl
  · intro hno
    show ((idxFrom 0 (c.getArrD "prodL")).map
        (fun p => (p.1, Product.from_api p.2))) = []
    have harr : c.getArrD "prodL" = [] := by
      unfold JVal.getArrD
      rw [hno]
    rw [harr]
    rfl
  · intro xs hxs i pd hi
    have harr : c.getArrD "polyL" = xs := by
      unfold JVal.getArrD
      rw [hxs]
    show ((idxFrom 0 (c.getArrD "polyL")).filterMap
        (fun p => (polyEntry p.2).map (fun pl => (p.1, pl)))).lookup i = polyEntry pd
    rw [harr]
    have h0 := lookup_idxFrom_filterMap polyEntry xs 0 i
    rw [Nat.zero_add] at h0
    rw [h0, hi]
    rfl
  · intro hno
    show ((idxFrom 0 (c.getArrD "polyL")).filterMap
        (fun p => (polyEntry p.2).map (fun pl => (p.1, pl)))) = []
    have harr : c.getArrD "polyL" = [] := by
      unfold JVal.getArrD
      rw [hno]
    rw [harr]
    rfl

/-- Claim C6 witness block: two locations, no products, one geometry-bearing
polyline entry. -/
def c6wblock : JVal :=
  .obj [("locL", .arr [.obj [("name", .str "A")], .obj [("name", .str "B")]]),
        ("polyL", .arr [.obj [("crdEncYX", .str "??")]])]

/-- Witness for the amended claim C6 at a concrete common block. -/
theorem c6_resolver_positional_tables_witness :
    (_parse_common_data c6wblock).locations.map Prod.fst = List.range 2 ∧
    (_parse_common_data c6wblock).locations.lookup 1
      = some (Location.from_api (.obj [("name", .str "B")])) ∧
    (_parse_common_data c6wblock).products = [] ∧
    (_parse_common_data c6wblock).polylines.lookup 0
      = polyEntry (.obj [("crdEncYX", .str "??")]) := by
  have h := c6_resolver_positional_tables c6wblock
  have hloc := h.1 [.obj [("name", .str "A")], .obj [("name", .str "B")]] rfl
  exact ⟨hloc.1, hloc.2 1 (.obj [("name", .str "B")]) rfl,
    h.2.2.2.1 rfl,
    h.2.2.2.2.1 [.obj [("crdEncYX", .str "??")]] rfl 0
      (.obj [("crdEncYX", .str "??")]) rfl⟩

/-! ## Equivalence of `decode_polyline` with the reference codec on the
valid encoding alphabet -/

/-- Left shift distributes over bitwise or. -/
lemma lor_shiftLeft (x y n : Nat) : (x ||| y) <<< n = (x <<< n) ||| (y <<< n) := by
  apply Nat.eq_of_testBit_eq
  intro i
  simp only [Nat.testBit_shiftLeft, Nat.testBit_lor]
  by_cases h : n ≤ i <;> simp [h]

/-- The rest left by a reference varint read is part of the input. -/
lemma specGroups_rest_mem :
    ∀ (s : List Char) (c : Char), c ∈ (specGroups s).2 → c ∈ s := by
  intro s
  induction s with
  | nil =>
    intro c hc
    exact absurd hc (by simp [specGroups])
  | cons x rest ih =>
    intro c hc
    by_cases hlt : ((x.toNat : Int) - 63) % 64 < 32
    · have he : (specGroups (x :: rest)).2 = rest := by
        simp [specGroups, hlt]
      rw [he] at hc
      exact List.mem_cons_of_mem x hc
    · have he : (specGroups (x :: rest)).2 = (specGroups rest).2 := by
        simp [specGroups, hlt]
      rw [he] at hc
      exact List.mem_cons_of_mem x (ih c hc)

/-- Over characters of the valid encoding alphabet (codes 63..126, so
`char_code - 63` lies in 0..63) the source's iterative shift-or varint read
computes exactly the reference read: the assembled groups shifted into place
above the accumulator, with the same rest. -/
lemma readVarint_eq_spec :
    ∀ (s : List Char), (∀ c ∈ s, 63 ≤ c.toNat ∧ c.toNat ≤ 126) →
      ∀ (shift acc : Nat),
        readVarint s shift acc
          = (acc ||| (specAssemble (specGroups s).1 <<< shift), (specGroups s).2) := by
  intro s
  induction s with
  | nil =>
    intro _ shift acc
    simp [readVarint, specGroups, specAssemble, Nat.zero_shiftLeft, Nat.or_zero]
  | cons c rest ih =>
    intro hs shift acc
    have hc := hs c (List.mem_cons_self c rest)
    have hrest : ∀ x ∈ rest, 63 ≤ x.toNat ∧ x.toNat ≤ 126 :=
      fun x hx => hs x (List.mem_cons_of_mem c hx)
    have hb0 : (0 : Int) ≤ (c.toNat : Int) - 63 := by omega
    have hb64 : (c.toNat : Int) - 63 < 64 := by omega
    have hmod : ((c.toNat : Int) - 63) % 64 = (c.toNat : Int) - 63 :=
      Int.emod_eq_of_lt hb0 hb64
    simp only [readVarint, specGroups]
    by_cases hlt : (c.toNat : Int) - 63 < 32
    · rw [if_pos hlt, if_pos (by rw [hmod]; exact hlt)]
      simp [specAssemble, Nat.zero_shiftLeft, Nat.or_zero]
    · rw [if_neg hlt, if_neg (by rw [hmod]; exact hlt)]
      rw [ih hrest (shift + 5) (acc ||| (((c.toNat : Int) - 63) % 32).toNat <<< shift)]
      have hkey :
          (acc ||| (((c.toNat : Int) - 63) % 32).toNat <<< shift) |||
              specAssemble (specGroups rest).1 <<< (shift + 5)
            = acc |||
              ((((c.toNat : Int) - 63) % 32).toNat |||
                specAssemble (specGroups rest).1 <<< 5) <<< shift := by
        rw [lor_shiftLeft, ← Nat.shiftLeft_add, Nat.add_comm 5 shift, Nat.lor_assoc]
      rw [hkey]
      rfl

/-- Zig-zag sign decoding: the source's bit tests agree with the spec's
arithmetic phrasing. -/
lemma signedDelta_eq_specSigned (m : Nat) : signedDelta m = specSigned m := by
  unfold signedDelta specSigned
  rw [Nat.and_one_is_mod, Nat.shiftRight_eq_div_pow, pow_one]

/-- On inputs from the valid encoding alphabet the source's decoding loop and
the reference loop agree step by step. -/
lemma decodeLoop_eq_specLoop :
    ∀ (fuel : Nat) (s : List Char), (∀ c ∈ s, 63 ≤ c.toNat ∧ c.toNat ≤ 126) →
      ∀ (lat lon : Int), decodeLoop fuel s lat lon = specLoop fuel s lat lon := by
  intro fuel
  induction fuel with
  | zero => intro s _ lat lon; rfl
  | succ fuel ih =>
    intro s hs lat lon
    cases s with
    | nil => rfl
    | cons c cs =>
      simp only [decodeLoop, specLoop, specVarint]
      rw [readVarint_eq_spec (c :: cs) hs 0 0]
      simp only [Nat.zero_or, Nat.shiftLeft_zero, signedDelta_eq_specSigned]
      have hrest1 : ∀ x ∈ (specGroups (c :: cs)).2, 63 ≤ x.toNat ∧ x.toNat ≤ 126 :=
        fun x hx => hs x (specGroups_rest_mem (c :: cs) x hx)
      cases hr1 : (specGroups (c :: cs)).2 with
      | nil => simp
      | cons d ds =>
        simp only [List.isEmpty_cons, Bool.false_eq_true, if_false]
        rw [hr1] at hrest1
        rw [readVarint_eq_spec (d :: ds) hrest1 0 0]
        simp only [Nat.zero_or, Nat.shiftLeft_zero, signedDelta_eq_specSigned]
        have hrest2 : ∀ x ∈ (specGroups (d :: ds)).2, 63 ≤ x.toNat ∧ x.toNat ≤ 126 :=
          fun x hx => hrest1 x (specGroups_rest_mem (d :: ds) x hx)
        rw [ih (specGroups (d :: ds)).2 hrest2]

/-- Counterexample to claim C2 as stated: over the full character range the
source and the reference algorithm differ.  In `">@??"` the char `'>'`
(code 62) makes `char_code - 63 = -1`: the source's comparison `b < 0x20`
stops the varint there, while bit 0x20 of `-1` is set in two's complement,
so the reference algorithm keeps reading — the decodes even have different
lengths. -/
theorem c2_decode_polyline_counterexample :
    decode_polyline ">@??" ≠ spec_decode ">@??" := by
  intro h
  exact absurd (congrArg List.length h) (by decide)

/-- Claim C2 (amended): restricted to strings over the valid encoding
alphabet (char codes 63..126, where `char_code - 63` fits the 6-bit group
range and the comparison `b < 0x20` coincides with testing continuation bit
0x20), `decode_polyline` equals the reference algorithm of the spec —
little-endian 5-bit varint groups over `char_code - 63`, zig-zag sign,
latitude first, running deltas from (0,0), division by 1e5, empty input to
empty output, truncated final pair dropped. -/
theorem c2_decode_polyline_matches_spec (s : String)
    (h : ∀ c ∈ s.data, 63 ≤ c.toNat ∧ c.toNat ≤ 126) :
    decode_polyline s = spec_decode s := by
  unfold decode_polyline spec_decode
  by_cases he : s.isEmpty
  · rw [if_pos he, (String.isEmpty_iff s).mp he]
    rfl
  · rw [if_neg he]
    exact decodeLoop_eq_specLoop s.length s.data h 0 0

/-- Witness for the amended claim C2 at the concrete valid-alphabet string
`"AB"` (one coordinate pair, deltas 1 and -2). -/
theorem c2_decode_polyline_matches_spec_witness :
    (∀ c ∈ "AB".data, 63 ≤ c.toNat ∧ c.toNat ≤ 126) ∧
    decode_polyline "AB" = spec_decode "AB" :=
  ⟨by decide, c2_decode_polyline_matches_spec "AB" (by decide)⟩

/-! ## Facts about the walking-geometry fill -/

/-- Appending a differing token to the log leaves a token's count
unchanged. -/
lemma count_append_single_ne (l : List String) (t k : String) (h : k ≠ t) :
    (l ++ [k]).count t = l.count t := by
  simp [List.count_append, List.count_cons, h]

/-- Appending the token itself increments its count by one. -/
lemma count_append_single_eq (l : List String) (t : String) :
    (l ++ [t]).count t = l.count t + 1 := by
  simp [List.count_append, List.count_cons]

/-- Exhaustive case analysis of one fill step: untouched section (no gis,
non-WALK or empty token), cache hit, successful fetch, failed fetch. -/
lemma fillSection_cases (oracle : String → Option JVal) (st : FillState)
    (sec : TripSection) :
    (fillSection oracle st sec = (st, sec) ∧
      ∀ g, sec.gis = some g → ¬(sec.type = TransportMode.WALK ∧ g.ctx ≠ ""))
    ∨ (∃ g p, sec.gis = some g ∧ sec.type = TransportMode.WALK ∧ g.ctx ≠ "" ∧
        st.walking_polylines.lookup g.ctx = some p ∧
        fillSection oracle st sec
          = (st, { sec with gis := some { g with polyline := some p } }))
    ∨ (∃ g p, sec.gis = some g ∧ sec.type = TransportMode.WALK ∧ g.ctx ≠ "" ∧
        st.walking_polylines.lookup g.ctx = none ∧
        (get_walking_details (oracle g.ctx)).2.2 = some p ∧
        fillSection oracle st sec
          = ({ walking_polylines := (g.ctx, p) :: st.walking_polylines,
               fetchLog := st.fetchLog ++ [g.ctx] },
             { sec with gis := some ({ g with
                 polyline := some p
                 segments := (get_walking_details (oracle g.ctx)).2.1 }) }))
    ∨ (∃ g, sec.gis = some g ∧ sec.type = TransportMode.WALK ∧ g.ctx ≠ "" ∧
        st.walking_polylines.lookup g.ctx = none ∧
        (get_walking_details (oracle g.ctx)).2.2 = none ∧
        fillSection oracle st sec
          = ({ st with fetchLog := st.fetchLog ++ [g.ctx] }, sec)) := by
  cases hg : sec.gis with
  | none =>
    left
    refine ⟨?_, fun g hgg => Option.noConfusion hgg⟩
    unfold fillSection
    rw [hg]
  | some g =>
    by_cases hcond : sec.type = TransportMode.WALK ∧ g.ctx ≠ ""
    · cases hl : st.walking_polylines.lookup g.ctx with
      | some p =>
        right; left
        refine ⟨g, p, rfl, hcond.1, hcond.2, hl, ?_⟩
        unfold fillSection
        rw [hg]
        dsimp only
        rw [if_pos hcond, hl]
      | none =>
        cases hf : (get_walking_details (oracle g.ctx)).2.2 with
        | some p =>
          right; right; left
          refine ⟨g, p, rfl, hcond.1, hcond.2, hl, hf, ?_⟩
          unfold fillSection
          rw [hg]
          dsimp only
          rw [if_pos hcond, hl]
          dsimp only
          rw [hf]
        | none =>
          right; right; right
          refine ⟨g, rfl, hcond.1, hcond.2, hl, hf, ?_⟩
          unfold fillSection
          rw [hg]
          dsimp only
          rw [if_pos hcond, hl]
          dsimp only
          rw [hf]
    · left
      refine ⟨?_, fun g2 hgg => Option.some.inj hgg ▸ hcond⟩
      unfold fillSection
      rw [hg]
      dsimp only
      rw [if_neg hcond]

/-- The fill never changes a section's mode or its route-context token. -/
lemma fillSection_type_ctx (oracle : String → Option JVal) (st : FillState)
    (sec : TripSection) :
    ((fillSection oracle st sec).2).type = sec.type ∧
    ((fillSection oracle st sec).2).gis.map GisInfo.ctx
      = sec.gis.map GisInfo.ctx := by
  rcases fillSection_cases oracle st sec with ⟨heq, _⟩ |
    ⟨g, p, hg, _, _, _, heq⟩ | ⟨g, p, hg, _, _, _, _, heq⟩ |
    ⟨g, hg, _, _, _, _, heq⟩
  · rw [heq]
    exact ⟨rfl, rfl⟩
  · rw [heq]
    refine ⟨rfl, ?_⟩
    rw [hg]
    rfl
  · rw [heq]
    refine ⟨rfl, ?_⟩
    rw [hg]
    rfl
  · rw [heq]
    exact ⟨rfl, rfl⟩

/-- Bearing a token is invariant under one fill step. -/
lemma bearsToken_fillSection (oracle : String → Option JVal) (st : FillState)
    (sec : TripSection) (t : String) :
    bearsToken t (fillSection oracle st sec).2 ↔ bearsToken t sec := by
  have h := fillSection_type_ctx oracle st sec
  unfold bearsToken
  rw [h.1, h.2]

/-- One fill step from a state whose cache already holds token `t`: the
cache entry and fetch count for `t` are untouched, and a section bearing `t`
comes out with the cached polyline attached. -/
lemma fillSection_cached (oracle : String → Option JVal) (st : FillState)
    (sec : TripSection) (t : String) (p : Polyline) (ht : t ≠ "")
    (hc : st.walking_polylines.lookup t = some p) :
    ((fillSection oracle st sec).1).walking_polylines.lookup t = some p ∧
    ((fillSection oracle st sec).1).fetchLog.count t = st.fetchLog.count t ∧
    (bearsToken t sec →
      ((fillSection oracle st sec).2).gis.map GisInfo.polyline
        = some (some p)) := by
  rcases fillSection_cases oracle st sec with ⟨heq, hno⟩ |
    ⟨g, q, hg, hw, hne, hl, heq⟩ | ⟨g, q, hg, hw, hne, hl, hf, heq⟩ |
    ⟨g, hg, hw, hne, hl, hf, heq⟩
  · rw [heq]
    refine ⟨hc, rfl, fun hb => ?_⟩
    rcases Option.map_eq_some'.mp hb.2 with ⟨g, hg, hctx⟩
    refine absurd ⟨hb.1, ?_⟩ (hno g hg)
    rw [hctx]
    exact ht
  · rw [heq]
    refine ⟨hc, rfl, fun hb => ?_⟩
    have hctx : g.ctx = t := by
      have hb2 := hb.2
      rw [hg] at hb2
      exact Option.some.inj hb2
    rw [hctx] at hl
    rw [Option.some.inj (hc.symm.trans hl)]
    rfl
  · have hgt : g.ctx ≠ t := by
      intro h
      rw [h] at hl
      exact Option.noConfusion (hc.symm.trans hl)
    rw [heq]
    refine ⟨?_, count_append_single_ne st.fetchLog t g.ctx hgt, fun hb => ?_⟩
    · have hbeq : (t == g.ctx) = false := beq_eq_false_iff_ne.mpr (Ne.symm hgt)
      simp only [List.lookup, hbeq]
      exact hc
    · have hb2 := hb.2
      rw [hg] at hb2
      exact absurd (Option.some.inj hb2) hgt
  · have hgt : g.ctx ≠ t := by
      intro h
      rw [h] at hl
      exact Option.noConfusion (hc.symm.trans hl)
    rw [heq]
    refine ⟨hc, count_append_single_ne st.fetchLog t g.ctx hgt, fun hb => ?_⟩
    have hctx : g.ctx = t := by
      have hb2 := hb.2
      rw [hg] at hb2
      exact Option.some.inj hb2
    exact absurd hctx hgt

/-- One fill step from a state in which token `t` is uncached while the
fetch for `t` would succeed with polyline `p`: a section bearing `t` fetches
once, stores `p` under `t` and comes out with `p` attached; any other
section leaves `t` uncached and unfetched. -/
lemma fillSection_miss (oracle : String → Option JVal) (st : FillState)
    (sec : TripSection) (t : String) (p : Polyline) (ht : t ≠ "")
    (hc : st.walking_polylines.lookup t = none)
    (hf : (get_walking_details (oracle t)).2.2 = some p) :
    (bearsToken t sec →
      ((fillSection oracle st sec).1).walking_polylines.lookup t = some p ∧
      ((fillSection oracle st sec).1).fetchLog.count t = st.fetchLog.count t + 1 ∧
      ((fillSection oracle st sec).2).gis.map GisInfo.polyline
        = some (some p)) ∧
    (¬ bearsToken t sec →
      ((fillSection oracle st sec).1).walking_polylines.lookup t = none ∧
      ((fillSection oracle st sec).1).fetchLog.count t = st.fetchLog.count t) := by
  rcases fillSection_cases oracle st sec with ⟨heq, hno⟩ |
    ⟨g, q, hg, hw, hne, hl, heq⟩ | ⟨g, q, hg, hw, hne, hl, hf2, heq⟩ |
    ⟨g, hg, hw, hne, hl, hf2, heq⟩
  · rw [heq]
    refine ⟨fun hb => ?_, fun _ => ⟨hc, rfl⟩⟩
    rcases Option.map_eq_some'.mp hb.2 with ⟨g, hg, hctx⟩
    refine absurd ⟨hb.1, ?_⟩ (hno g hg)
    rw [hctx]
    exact ht
  · rw [heq]
    refine ⟨fun hb => ?_, fun _ => ⟨hc, rfl⟩⟩
    have hb2 := hb.2
    rw [hg] at hb2
    have hctx : g.ctx = t := Option.some.inj hb2
    rw [hctx] at hl
    exact absurd hl (by rw [hc]; exact fun h => Option.noConfusion h)
  · by_cases hctx : g.ctx = t
    · subst hctx
      have hqp : q = p := Option.some.inj (hf2.symm.trans hf)
      subst hqp
      rw [heq]
      refine ⟨fun hb => ?_, fun hnb => ?_⟩
      · refine ⟨?_, count_append_single_eq st.fetchLog g.ctx, rfl⟩
        simp [List.lookup]
      · refine absurd ⟨hw, ?_⟩ hnb
        rw [hg]
        rfl
    · rw [heq]
      refine ⟨fun hb => ?_, fun _ => ?_⟩
      · have hb2 := hb.2
        rw [hg] at hb2
        exact absurd (Option.some.inj hb2) hctx
      · refine ⟨?_, count_append_single_ne st.fetchLog t g.ctx hctx⟩
        have hbeq : (t == g.ctx) = false := beq_eq_false_iff_ne.mpr (Ne.symm hctx)
        simp only [List.lookup, hbeq]
        exact hc
  · by_cases hctx : g.ctx = t
    · rw [hctx] at hf2
      exact absurd hf (by rw [hf2]; exact fun h => Option.noConfusion h)
    · rw [heq]
      refine ⟨fun hb => ?_, fun _ => ?_⟩
      · have hb2 := hb.2
        rw [hg] at hb2
        exact absurd (Option.some.inj hb2) hctx
      · exact ⟨hc, count_append_single_ne st.fetchLog t g.ctx hctx⟩

/-- One fill step from a state in which token `t` is uncached and the fetch
for `t` yields no geometry: the cache still has no entry for `t` and a
section bearing `t` comes out completely unchanged. -/
lemma fillSection_nofetch (oracle : String → Option JVal) (st : FillState)
    (sec : TripSection) (t : String)
    (hc : st.walking_polylines.lookup t = none)
    (hf : (get_walking_details (oracle t)).2.2 = none) :
    ((fillSection oracle st sec).1).walking_polylines.lookup t = none ∧
    (bearsToken t sec → (fillSection oracle st sec).2 = sec) := by
  rcases fillSection_cases oracle st sec with ⟨heq, hno⟩ |
    ⟨g, q, hg, hw, hne, hl, heq⟩ | ⟨g, q, hg, hw, hne, hl, hf2, heq⟩ |
    ⟨g, hg, hw, hne, hl, hf2, heq⟩
  · rw [heq]
    exact ⟨hc, fun _ => rfl⟩
  · rw [heq]
    refine ⟨hc, fun hb => ?_⟩
    have hb2 := hb.2
    rw [hg] at hb2
    have hctx : g.ctx = t := Option.some.inj hb2
    rw [hctx] at hl
    exact absurd hl (by rw [hc]; exact fun h => Option.noConfusion h)
  · have hctx : g.ctx ≠ t := by
      intro h
      rw [h] at hf2
      exact Option.noConfusion (hf.symm.trans hf2)
    rw [heq]
    refine ⟨?_, fun hb => ?_⟩
    · have hbeq : (t == g.ctx) = false := beq_eq_false_iff_ne.mpr (Ne.symm hctx)
      simp only [List.lookup, hbeq]
      exact hc
    · have hb2 := hb.2
      rw [hg] at hb2
      exact absurd (Option.some.inj hb2) hctx
  · rw [heq]
    exact ⟨hc, fun _ => rfl⟩

/-- Filling a section list from a state whose cache holds `t`: no fetch for
`t` is ever issued and every output section bearing `t` carries the cached
polyline. -/
lemma fillSections_cached (oracle : String → Option JVal) (t : String)
    (p : Polyline) (ht : t ≠ "") :
    ∀ (secs : List TripSection) (st : FillState),
      st.walking_polylines.lookup t = some p →
      ((fillSections oracle st secs).1).walking_polylines.lookup t = some p ∧
      ((fillSections oracle st secs).1).fetchLog.count t = st.fetchLog.count t ∧
      ∀ s2 ∈ (fillSections oracle st secs).2, bearsToken t s2 →
        s2.gis.map GisInfo.polyline = some (some p) := by
  intro secs
  induction secs with
  | nil =>
    intro st hc
    exact ⟨hc, rfl, fun s2 hs2 => absurd hs2 (List.not_mem_nil s2)⟩
  | cons s rest ih =>
    intro st hc
    have hstep := fillSection_cached oracle st s t p ht hc
    have hrest := ih (fillSection oracle st s).1 hstep.1
    refine ⟨hrest.1, ?_, ?_⟩
    · show ((fillSections oracle (fillSection oracle st s).1 rest).1).fetchLog.count t
        = st.fetchLog.count t
      rw [hrest.2.1, hstep.2.1]
    · intro s2 hs2
      have hs2b : s2 ∈ (fillSection oracle st s).2 ::
          (fillSections oracle (fillSection oracle st s).1 rest).2 := hs2
      rcases List.mem_cons.mp hs2b with h | h
      · subst h
        intro hb
        exact hstep.2.2 ((bearsToken_fillSection oracle st s t).mp hb)
      · exact hrest.2.2 s2 h

/-- Filling a section list from a state in which `t` is uncached and its
fetch would succeed with `p`: if some section bears `t` the fetch happens
exactly once and caches `p`; if none does, `t` stays uncached and unfetched;
either way every output section bearing `t` carries `p`. -/
lemma fillSections_miss (oracle : String → Option JVal) (t : String)
    (p : Polyline) (ht : t ≠ "")
    (hf : (get_walking_details (oracle t)).2.2 = some p) :
    ∀ (secs : List TripSection) (st : FillState),
      st.walking_polylines.lookup t = none →
      ((∃ s ∈ secs, bearsToken t s) →
        ((fillSections oracle st secs).1).walking_polylines.lookup t = some p ∧
        ((fillSections oracle st secs).1).fetchLog.count t
          = st.fetchLog.count t + 1) ∧
      ((∀ s ∈ secs, ¬ bearsToken t s) →
        ((fillSections oracle st secs).1).walking_polylines.lookup t = none ∧
        ((fillSections oracle st secs).1).fetchLog.count t
          = st.fetchLog.count t) ∧
      ∀ s2 ∈ (fillSections oracle st secs).2, bearsToken t s2 →
        s2.gis.map GisInfo.polyline = some (some p) := by
  intro secs
  induction secs with
  | nil =>
    intro st hc
    refine ⟨fun hex => ?_, fun _ => ⟨hc, rfl⟩,
      fun s2 hs2 => absurd hs2 (List.not_mem_nil s2)⟩
    rcases hex with ⟨s, hs, _⟩
    exact absurd hs (List.not_mem_nil s)
  | cons s rest ih =>
    intro st hc
    by_cases hb : bearsToken t s
    · have hstep := (fillSection_miss oracle st s t p ht hc hf).1 hb
      have hrest := fillSections_cached oracle t p ht rest
        (fillSection oracle st s).1 hstep.1
      refine ⟨fun _ => ⟨hrest.1, ?_⟩,
        fun hall => absurd hb (hall s (List.mem_cons_self s rest)), ?_⟩
      · show ((fillSections oracle (fillSection oracle st s).1 rest).1).fetchLog.count t
          = st.fetchLog.count t + 1
        rw [hrest.2.1, hstep.2.1]
      · intro s2 hs2
        have hs2b : s2 ∈ (fillSection oracle st s).2 ::
            (fillSections oracle (fillSection oracle st s).1 rest).2 := hs2
        rcases List.mem_cons.mp hs2b with h | h
        · subst h
          intro _
          exact hstep.2.2
        · exact hrest.2.2 s2 h
    · have hstep := (fillSection_miss oracle st s t p ht hc hf).2 hb
      have hrest := ih (fillSection oracle st s).1 hstep.1
      refine ⟨fun hex => ?_, fun hall => ?_, ?_⟩
      · rcases hex with ⟨s3, hs3, hb3⟩
        rcases List.mem_cons.mp hs3 with h | h
        · exact absurd (h ▸ hb3) hb
        · have hr := hrest.1 ⟨s3, h, hb3⟩
          refine ⟨hr.1, ?_⟩
          show ((fillSections oracle (fillSection oracle st s).1 rest).1).fetchLog.count t
            = st.fetchLog.count t + 1
          rw [hr.2, hstep.2]
      · have hr := hrest.2.1 (fun s3 h3 => hall s3 (List.mem_cons_of_mem s h3))
        refine ⟨hr.1, ?_⟩
        show ((fillSections oracle (fillSection oracle st s).1 rest).1).fetchLog.count t
          = st.fetchLog.count t
        rw [hr.2, hstep.2]
      · intro s2 hs2
        have hs2b : s2 ∈ (fillSection oracle st s).2 ::
            (fillSections oracle (fillSection oracle st s).1 rest).2 := hs2
        rcases List.mem_cons.mp hs2b with h | h
        · subst h
          intro hb2
          exact absurd ((bearsToken_fillSection oracle st s t).mp hb2) hb
        · exact hrest.2.2 s2 h

/-- Filling a section list when `t` is uncached and its fetch yields no
geometry: `t` stays uncached and every section bearing `t` is returned
completely unchanged. -/
lemma fillSections_nofetch (oracle : String → Option JVal) (t : String)
    (hf : (get_walking_details (oracle t)).2.2 = none) :
    ∀ (secs : List TripSection) (st : FillState),
      st.walking_polylines.lookup t = none →
      ((fillSections oracle st secs).1).walking_polylines.lookup t = none ∧
      List.Forall₂ (fun s s2 => bearsToken t s → s2 = s) secs
        (fillSections oracle st secs).2 := by
  intro secs
  induction secs with
  | nil =>
    intro st hc
    exact ⟨hc, List.Forall₂.nil⟩
  | cons s rest ih =>
    intro st hc
    have hstep := fillSection_nofetch oracle st s t hc hf
    have hrest := ih (fillSection oracle st s).1 hstep.1
    exact ⟨hrest.1, List.Forall₂.cons hstep.2 hrest.2⟩

/-- Filling a whole result set from a state whose cache holds `t`. -/
lemma fillTrips_cached (oracle : String → Option JVal) (t : String)
    (p : Polyline) (ht : t ≠ "") :
    ∀ (trips : List Trip) (st : FillState),
      st.walking_polylines.lookup t = some p →
      ((fillTrips oracle st trips).1).walking_polylines.lookup t = some p ∧
      ((fillTrips oracle st trips).1).fetchLog.count t = st.fetchLog.count t ∧
      ∀ tr2 ∈ (fillTrips oracle st trips).2, ∀ s2 ∈ tr2.sections,
        bearsToken t s2 → s2.gis.map GisInfo.polyline = some (some p) := by
  intro trips
  induction trips with
  | nil =>
    intro st hc
    exact ⟨hc, rfl, fun tr2 htr2 => absurd htr2 (List.not_mem_nil tr2)⟩
  | cons tr rest ih =>
    intro st hc
    have hsecs := fillSections_cached oracle t p ht tr.sections st hc
    have hrest := ih (fillSections oracle st tr.sections).1 hsecs.1
    refine ⟨hrest.1, ?_, ?_⟩
    · show ((fillTrips oracle (fillSections oracle st tr.sections).1 rest).1).fetchLog.count t
        = st.fetchLog.count t
      rw [hrest.2.1, hsecs.2.1]
    · intro tr2 htr2
      have htr2b : tr2 ∈ ({ tr with sections := (fillSections oracle st tr.sections).2 } :
          Trip) :: (fillTrips oracle (fillSections oracle st tr.sections).1 rest).2 := htr2
      rcases List.mem_cons.mp htr2b with h | h
      · subst h
        exact hsecs.2.2
      · exact hrest.2.2 tr2 h

/-- Filling a whole result set from a state in which `t` is uncached and its
fetch would succeed with `p`. -/
lemma fillTrips_miss (oracle : String → Option JVal) (t : String)
    (p : Polyline) (ht : t ≠ "")
    (hf : (get_walking_details (oracle t)).2.2 = some p) :
    ∀ (trips : List Trip) (st : FillState),
      st.walking_polylines.lookup t = none →
      ((∃ tr ∈ trips, ∃ s ∈ tr.sections, bearsToken t s) →
        ((fillTrips oracle st trips).1).walking_polylines.lookup t = some p ∧
        ((fillTrips oracle st trips).1).fetchLog.count t
          = st.fetchLog.count t + 1) ∧
      ∀ tr2 ∈ (fillTrips oracle st trips).2, ∀ s2 ∈ tr2.sections,
        bearsToken t s2 → s2.gis.map GisInfo.polyline = some (some p) := by
  intro trips
  induction trips with
  | nil =>
    intro st hc
    refine ⟨fun hex => ?_, fun tr2 htr2 => absurd htr2 (List.not_mem_nil tr2)⟩
    rcases hex with ⟨tr, htr, _⟩
    exact absurd htr (List.not_mem_nil tr)
  | cons tr rest ih =>
    intro st hc
    have hsecs := fillSections_miss oracle t p ht hf tr.sections st hc
    by_cases hb : ∃ s ∈ tr.sections, bearsToken t s
    · have hfirst := hsecs.1 hb
      have hrest := fillTrips_cached oracle t p ht rest
        (fillSections oracle st tr.sections).1 hfirst.1
      refine ⟨fun _ => ⟨hrest.1, ?_⟩, ?_⟩
      · show ((fillTrips oracle (fillSections oracle st tr.sections).1 rest).1).fetchLog.count t
          = st.fetchLog.count t + 1
        rw [hrest.2.1, hfirst.2]
      · intro tr2 htr2
        have htr2b : tr2 ∈ ({ tr with sections := (fillSections oracle st tr.sections).2 } :
            Trip) :: (fillTrips oracle (fillSections oracle st tr.sections).1 rest).2 := htr2
        rcases List.mem_cons.mp htr2b with h | h
        · subst h
          exact hsecs.2.2
        · exact hrest.2.2 tr2 h
    · have hnone : ∀ s ∈ tr.sections, ¬ bearsToken t s := by
        intro s hs hbs
        exact hb ⟨s, hs, hbs⟩
      have hfirst := hsecs.2.1 hnone
      have hrest := ih (fillSections oracle st tr.sections).1 hfirst.1
      refine ⟨fun hex => ?_, ?_⟩
      · rcases hex with ⟨tr3, htr3, hs3⟩
        rcases List.mem_cons.mp htr3 with h | h
        · rcases hs3 with ⟨s3, hsm, hb3⟩
          exact absurd hb3 (hnone s3 (h ▸ hsm))
        · have hr := hrest.1 ⟨tr3, h, hs3⟩
          refine ⟨hr.1, ?_⟩
          show ((fillTrips oracle (fillSections oracle st tr.sections).1 rest).1).fetchLog.count t
            = st.fetchLog.count t + 1
          rw [hr.2, hfirst.2]
      · intro tr2 htr2
        have htr2b : tr2 ∈ ({ tr with sections := (fillSections oracle st tr.sections).2 } :
            Trip) :: (fillTrips oracle (fillSections oracle st tr.sections).1 rest).2 := htr2
        rcases List.mem_cons.mp htr2b with h | h
        · subst h
          exact hsecs.2.2
        · exact hrest.2 tr2 h

/-- Filling a whole result set when `t` is uncached and its fetch yields no
geometry: every trip is still returned, differing from its input only in its
sections, and sections bearing `t` are unchanged. -/
lemma fillTrips_nofetch (oracle : String → Option JVal) (t : String)
    (hf : (get_walking_details (oracle t)).2.2 = none) :
    ∀ (trips : List Trip) (st : FillState),
      st.walking_polylines.lookup t = none →
      ((fillTrips oracle st trips).1).walking_polylines.lookup t = none ∧
      List.Forall₂ (fun tr tr2 => ∃ secs2, tr2 = { tr with sections := secs2 } ∧
          List.Forall₂ (fun s s2 => bearsToken t s → s2 = s) tr.sections secs2)
        trips (fillTrips oracle st trips).2 := by
  intro trips
  induction trips with
  | nil =>
    intro st hc
    exact ⟨hc, List.Forall₂.nil⟩
  | cons tr rest ih =>
    intro st hc
    have hsecs := fillSections_nofetch oracle t hf tr.sections st hc
    have hrest := ih (fillSections oracle st tr.sections).1 hsecs.1
    exact ⟨hrest.1,
      List.Forall₂.cons ⟨(fillSections oracle st tr.sections).2, rfl, hsecs.2⟩
        hrest.2⟩

/-- Claim C1: in a result set where some trips' WALK sections share an
uncached route-context token whose walking-details fetch succeeds, running
the walking-geometry fill issues exactly one fetch for that token (the fetch
log gains exactly one entry for it), stores the fetched Polyline in the
walking-polyline cache keyed by the token, and attaches that one cached
Polyline value to every WALK section bearing the token in every trip —
python's sharing of the object by reference is modelled as every section
carrying the very polyline value stored in the cache. -/
theorem c1_walking_cache_collapsing (oracle : String → Option JVal)
    (st : FillState) (trips : List Trip) (t : String) (p : Polyline)
    (ht : t ≠ "") (hc : st.walking_polylines.lookup t = none)
    (hf : (get_walking_details (oracle t)).2.2 = some p)
    (hex : ∃ tr ∈ trips, ∃ s ∈ tr.sections, bearsToken t s) :
    ((fillTrips oracle st trips).1).fetchLog.count t
      = st.fetchLog.count t + 1 ∧
    ((fillTrips oracle st trips).1).walking_polylines.lookup t = some p ∧
    ∀ tr2 ∈ (fillTrips oracle st trips).2, ∀ s2 ∈ tr2.sections,
      bearsToken t s2 → ∃ g2, s2.gis = some g2 ∧ g2.polyline = some p := by
  have h := fillTrips_miss oracle t p ht hf trips st hc
  have h1 := h.1 hex
  refine ⟨h1.2, h1.1, ?_⟩
  intro tr2 htr2 s2 hs2 hb
  exact Option.map_eq_some'.mp (h.2 tr2 htr2 s2 hs2 hb)

/-- The raw `GisRoute` response used by the C1 witness: one service entry
whose common block carries one geometry-bearing polyline. -/
def c1resp : JVal :=
  .obj [("svcResL", .arr [.obj [("meth", .str "GisRoute"),
    ("res", .obj [("common", .obj [("polyL",
      .arr [.obj [("crdEncYX", .str "??")]])])])]])]

/-- The polyline that fetch yields for the C1 witness. -/
def c1poly : Polyline := mkPolyline "??" (.obj [("crdEncYX", .str "??")])

/-- A WALK section bearing token `"T"` for the C1 witness. -/
def c1sec : TripSection :=
  { type := TransportMode.WALK
    gis := some { distance := 100, duration_seconds := "120", ctx := "T" } }

/-- First witness trip for claim C1. -/
def c1trip1 : Trip :=
  { id := "t1", date := "", duration := "", changes := 0,
    departure_time := "", arrival_time := "", sections := [c1sec] }

/-- Second witness trip for claim C1, bearing the same token. -/
def c1trip2 : Trip :=
  { id := "t2", date := "", duration := "", changes := 0,
    departure_time := "", arrival_time := "", sections := [c1sec] }

/-- Witness for claim C1: two trips sharing token `"T"`, an empty initial
cache and log, and a successful fetch — exactly one fetch, the polyline
cached under `"T"`, and every bearing section attached to it. -/
theorem c1_walking_cache_collapsing_witness :
    ((fillTrips (fun _ => some c1resp) ⟨[], []⟩ [c1trip1, c1trip2]).1).fetchLog.count "T"
      = ([] : List String).count "T" + 1 ∧
    ((fillTrips (fun _ => some c1resp) ⟨[], []⟩ [c1trip1, c1trip2]).1).walking_polylines.lookup "T"
      = some c1poly ∧
    ∀ tr2 ∈ (fillTrips (fun _ => some c1resp) ⟨[], []⟩ [c1trip1, c1trip2]).2,
      ∀ s2 ∈ tr2.sections, bearsToken "T" s2 →
        ∃ g2, s2.gis = some g2 ∧ g2.polyline = some c1poly :=
  c1_walking_cache_collapsing (fun _ => some c1resp) ⟨[], []⟩
    [c1trip1, c1trip2] "T" c1poly (by decide) rfl rfl
    ⟨c1trip1, List.mem_cons_self c1trip1 [c1trip2],
      c1sec, List.mem_cons_self c1sec [], ⟨rfl, rfl⟩⟩

/-- Claim C7: when the walking-details fetch for a token fails or returns no
geometry, nothing is stored in the cache for that token, every trip is still
returned (differing from its input only in its sections list), and every
WALK section bearing that token is completely unchanged — original distance
and duration kept, no polyline and no segments attached. -/
theorem c7_fetch_failure_degrades (oracle : String → Option JVal)
    (st : FillState) (trips : List Trip) (t : String)
    (hc : st.walking_polylines.lookup t = none)
    (hf : (get_walking_details (oracle t)).2.2 = none) :
    ((fillTrips oracle st trips).1).walking_polylines.lookup t = none ∧
    List.Forall₂ (fun tr tr2 => ∃ secs2, tr2 = { tr with sections := secs2 } ∧
        List.Forall₂ (fun s s2 => bearsToken t s → s2 = s) tr.sections secs2)
      trips (fillTrips oracle st trips).2 :=
  fillTrips_nofetch oracle t hf trips st hc

/-- A WALK section bearing token `"T"` for the C7 witness. -/
def c7sec : TripSection :=
  { type := TransportMode.WALK
    gis := some { distance := 50, duration_seconds := "60", ctx := "T" } }

/-- The witness trip for claim C7. -/
def c7trip : Trip :=
  { id := "w7", date := "", duration := "", changes := 0,
    departure_time := "", arrival_time := "", sections := [c7sec] }

/-- Witness for claim C7 with a transport-level fetch failure (`none`
response): the cache gains no entry and the trip survives with its section
untouched. -/
theorem c7_fetch_failure_degrades_witness :
    ((fillTrips (fun _ => none) ⟨[], []⟩ [c7trip]).1).walking_polylines.lookup "T"
      = none ∧
    List.Forall₂ (fun tr tr2 => ∃ secs2, tr2 = { tr with sections := secs2 } ∧
        List.Forall₂ (fun s s2 => bearsToken "T" s → s2 = s) tr.sections secs2)
      [c7trip] (fillTrips (fun _ => none) ⟨[], []⟩ [c7trip]).2 :=
  c7_fetch_failure_degrades (fun _ => none) ⟨[], []⟩ [c7trip] "T" rfl rfl

/-- Claim C10: when a WALK section's token is already a key of the
walking-polyline cache at attachment time, the fill assigns only
`gis.polyline` (to the cached Polyline) and issues no fetch: the state is
untouched, and every other part of the section — in particular its
`gis.segments` list, which fresh parses leave empty — is unchanged, since
segments are attached only by the fetch that first populated the cache entry
and are not stored in the cache. -/
theorem c10_cache_hit_assigns_only_polyline (oracle : String → Option JVal)
    (st : FillState) (sec : TripSection) (g : GisInfo) (p : Polyline)
    (hw : sec.type = TransportMode.WALK) (hg : sec.gis = some g)
    (hne : g.ctx ≠ "") (hc : st.walking_polylines.lookup g.ctx = some p) :
    fillSection oracle st sec
      = (st, { sec with gis := some { g with polyline := some p } }) := by
  unfold fillSection
  rw [hg]
  dsimp only
  rw [if_pos ⟨hw, hne⟩, hc]

/-- Concrete cache-hit section for the C10 witness. -/
def c10sec : TripSection :=
  { type := TransportMode.WALK
    gis := some { distance := 250, duration_seconds := "300", ctx := "T" } }

/-- Concrete cached polyline for the C10 witness. -/
def c10poly : Polyline := { encoded := "" }

/-- Witness for claim C10: attaching a cached token assigns only the
polyline field; segments stay empty and the state (hence the fetch log) is
unchanged. -/
theorem c10_cache_hit_assigns_only_polyline_witness :
    fillSection (fun _ => none) ⟨[("T", c10poly)], []⟩ c10sec
      = (⟨[("T", c10poly)], []⟩,
         { c10sec with
           gis := some { distance := 250, duration_seconds := "300", ctx := "T",
                         polyline := some c10poly } }) :=
  c10_cache_hit_assigns_only_polyline (fun _ => none) ⟨[("T", c10poly)], []⟩
    c10sec { distance := 250, duration_seconds := "300", ctx := "T" } c10poly
    rfl rfl (by decide) rfl
